import Mathlib

/-!
Shallow embedding of the favourites service from
`platform-go-challenge` (packages `models`, `repo`, `service`).

Payloads are modelled as parsed JSON values (`Json`); the decoding
functions mirror Go `encoding/json.Unmarshal` into the concrete structs
of `internal/models` (unknown keys ignored, keys matched ASCII
case-insensitively, object fields processed left to right with a later
occurrence overwriting an earlier one, a JSON `null` leaving the target
field unchanged, a wrongly-typed field aborting with an error).
Timestamps are modelled as naturals; `time.Time.After` is strict `>`.
-/

namespace PGC

/-- A parsed JSON value.  Numbers are modelled as rationals: the code
never computes with them, it only stores and counts them. -/
inductive Json where
  | null : Json
  | bool (b : Bool) : Json
  | num (q : ℚ) : Json
  | str (s : String) : Json
  | arr (elems : List Json) : Json
  | obj (fields : List (String × Json)) : Json

/-- Mirrors Go `strings.TrimSpace(s) == ""`: true iff every character of
`s` is white space (so the trimmed string is empty). -/
def isBlank (s : String) : Bool :=
  s.data.all fun c => c.isWhitespace

/-- `service.ValidateUserID`: the regexp `^[a-zA-Z0-9_\-]{1,64}$`. -/
def isUserIDChar (c : Char) : Bool :=
  (('a' ≤ c && c ≤ 'z') || ('A' ≤ c && c ≤ 'Z') ||
   ('0' ≤ c && c ≤ '9') || c = '_' || c = '-')

def validateUserID (id : String) : Bool :=
  decide (1 ≤ id.length) && decide (id.length ≤ 64) && id.data.all isUserIDChar

/-- The distinct error values the core produces (`fmt.Errorf` /
`errors.New` messages in `service`, `repo.ErrNotFound`). -/
inductive SvcErr where
  | invalidUserID                  -- "invalid user id"
  | invalidPath                    -- "invalid path"
  | invalidAssetJson               -- "invalid asset json: %w" (probe decode failed)
  | invalidChart                   -- "invalid chart: %w"
  | invalidInsight                 -- "invalid insight: %w"
  | invalidAudience                -- "invalid audience: %w"
  | chartNeedsTitleAndData         -- "chart needs title and non-empty data"
  | insightNeedsText               -- "insight needs text"
  | audienceNeedsGenderAndAgeGroups -- "audience needs gender and age_groups"
  | unknownAssetType               -- "unknown asset type"
  | notFound                       -- repo.ErrNotFound
deriving DecidableEq, Repr

/-- `models.AssetType` is a string type. -/
abbrev AssetType := String

def AssetChart : AssetType := "chart"
def AssetInsight : AssetType := "insight"
def AssetAudience : AssetType := "audience"

/-- The probe struct of `validateAsset`: only the envelope fields. -/
structure ProbeStruct where
  type : AssetType := ""
  description : String := ""
deriving DecidableEq, Repr

/-- `models.Chart` (with the embedded `AssetBase` flattened, as the
JSON decoder sees it). -/
structure ChartStruct where
  type : AssetType := ""
  description : String := ""
  title : String := ""
  axisXTitle : String := ""
  axisYTitle : String := ""
  data : List ℚ := []
deriving DecidableEq, Repr

/-- `models.Insight`. -/
structure InsightStruct where
  type : AssetType := ""
  description : String := ""
  text : String := ""
deriving DecidableEq, Repr

/-- `models.Audience`. -/
structure AudienceStruct where
  type : AssetType := ""
  description : String := ""
  gender : String := ""
  birthCountry : String := ""
  ageGroups : List String := []
  hoursSocialDaily : ℚ := 0
  purchasesLastMonth : ℤ := 0
deriving DecidableEq, Repr

/-- ASCII lower-casing of a key (character-wise `Char.toLower`). -/
def lowerKey (s : String) : String :=
  String.mk (s.data.map Char.toLower)

/-- Key matching of `encoding/json`: exact, else case-insensitive
(modelled as ASCII folding; all struct tags here are lower-case). -/
def keyIs (k tag : String) : Bool :=
  k = tag || lowerKey k = tag

/-- Decode a JSON value into a `string` field holding current value
`cur`: a string replaces it, `null` leaves it, anything else errors. -/
def decStr (j : Json) (cur : String) : Except Unit String :=
  match j with
  | .str s => .ok s
  | .null => .ok cur
  | _ => .error ()

/-- Decode into a `float64` field. -/
def decNum (j : Json) (cur : ℚ) : Except Unit ℚ :=
  match j with
  | .num q => .ok q
  | .null => .ok cur
  | _ => .error ()

/-- Decode into an `int` field: the literal must be integral. -/
def decInt (j : Json) (cur : ℤ) : Except Unit ℤ :=
  match j with
  | .num q => if q.den = 1 then .ok q.num else .error ()
  | .null => .ok cur
  | _ => .error ()

/-- Decode one element of a `[]float64`: the slot starts at the zero
value, so an element-level `null` leaves `0`. -/
def decNumElem (j : Json) : Except Unit ℚ :=
  match j with
  | .num q => .ok q
  | .null => .ok 0
  | _ => .error ()

/-- Decode into a `[]float64` field. -/
def decNumArr (j : Json) (cur : List ℚ) : Except Unit (List ℚ) :=
  match j with
  | .arr xs => xs.mapM decNumElem
  | .null => .ok cur
  | _ => .error ()

/-- Decode one element of a `[]string`. -/
def decStrElem (j : Json) : Except Unit String :=
  match j with
  | .str s => .ok s
  | .null => .ok ""
  | _ => .error ()

/-- Decode into a `[]string` field. -/
def decStrArr (j : Json) (cur : List String) : Except Unit (List String) :=
  match j with
  | .arr xs => xs.mapM decStrElem
  | .null => .ok cur
  | _ => .error ()

/-- One key/value step of decoding into the probe struct; unknown keys
are ignored. -/
def probeStep (p : ProbeStruct) (kv : String × Json) : Except Unit ProbeStruct :=
  if keyIs kv.1 "type" then do
    let v ← decStr kv.2 p.type
    .ok { p with type := v }
  else if keyIs kv.1 "description" then do
    let v ← decStr kv.2 p.description
    .ok { p with description := v }
  else .ok p

/-- `json.Unmarshal` of a value into a struct: `null` is a no-op on the
zero value, an object folds its fields in order, everything else is a
type error. -/
def decodeWith {σ : Type} (zero : σ) (step : σ → String × Json → Except Unit σ)
    (j : Json) : Except Unit σ :=
  match j with
  | .null => .ok zero
  | .obj fields => fields.foldlM step zero
  | _ => .error ()

def decodeProbe (j : Json) : Except Unit ProbeStruct :=
  decodeWith {} probeStep j

def chartStep (c : ChartStruct) (kv : String × Json) : Except Unit ChartStruct :=
  if keyIs kv.1 "type" then do
    let v ← decStr kv.2 c.type; .ok { c with type := v }
  else if keyIs kv.1 "description" then do
    let v ← decStr kv.2 c.description; .ok { c with description := v }
  else if keyIs kv.1 "title" then do
    let v ← decStr kv.2 c.title; .ok { c with title := v }
  else if keyIs kv.1 "axis_x_title" then do
    let v ← decStr kv.2 c.axisXTitle; .ok { c with axisXTitle := v }
  else if keyIs kv.1 "axis_y_title" then do
    let v ← decStr kv.2 c.axisYTitle; .ok { c with axisYTitle := v }
  else if keyIs kv.1 "data" then do
    let v ← decNumArr kv.2 c.data; .ok { c with data := v }
  else .ok c

def decodeChart (j : Json) : Except Unit ChartStruct :=
  decodeWith {} chartStep j

def insightStep (i : InsightStruct) (kv : String × Json) : Except Unit InsightStruct :=
  if keyIs kv.1 "type" then do
    let v ← decStr kv.2 i.type; .ok { i with type := v }
  else if keyIs kv.1 "description" then do
    let v ← decStr kv.2 i.description; .ok { i with description := v }
  else if keyIs kv.1 "text" then do
    let v ← decStr kv.2 i.text; .ok { i with text := v }
  else .ok i

def decodeInsight (j : Json) : Except Unit InsightStruct :=
  decodeWith {} insightStep j

def audienceStep (a : AudienceStruct) (kv : String × Json) : Except Unit AudienceStruct :=
  if keyIs kv.1 "type" then do
    let v ← decStr kv.2 a.type; .ok { a with type := v }
  else if keyIs kv.1 "description" then do
    let v ← decStr kv.2 a.description; .ok { a with description := v }
  else if keyIs kv.1 "gender" then do
    let v ← decStr kv.2 a.gender; .ok { a with gender := v }
  else if keyIs kv.1 "birth_country" then do
    let v ← decStr kv.2 a.birthCountry; .ok { a with birthCountry := v }
  else if keyIs kv.1 "age_groups" then do
    let v ← decStrArr kv.2 a.ageGroups; .ok { a with ageGroups := v }
  else if keyIs kv.1 "hours_social_daily" then do
    let v ← decNum kv.2 a.hoursSocialDaily; .ok { a with hoursSocialDaily := v }
  else if keyIs kv.1 "purchases_last_month" then do
    let v ← decInt kv.2 a.purchasesLastMonth; .ok { a with purchasesLastMonth := v }
  else .ok a

def decodeAudience (j : Json) : Except Unit AudienceStruct :=
  decodeWith {} audienceStep j

/-- `service.validateAsset`: probe for the envelope, dispatch on the
probed type, re-decode against the concrete shape, apply the
required-field rules, and return `(kind, description)`.  The input here
is the already-parsed payload, so the syntactic-parse failure branch of
the first `json.Unmarshal` is unreachable in the model. -/
def validateAsset (raw : Json) : Except SvcErr (AssetType × String) :=
  match decodeProbe raw with
  | .error _ => .error .invalidAssetJson
  | .ok probe =>
    if probe.type = AssetChart then
      match decodeChart raw with
      | .error _ => .error .invalidChart
      | .ok c =>
        if isBlank c.title = true ∨ c.data = [] then
          .error .chartNeedsTitleAndData
        else .ok (AssetChart, c.description)
    else if probe.type = AssetInsight then
      match decodeInsight raw with
      | .error _ => .error .invalidInsight
      | .ok i =>
        if isBlank i.text = true then .error .insightNeedsText
        else .ok (AssetInsight, i.description)
    else if probe.type = AssetAudience then
      match decodeAudience raw with
      | .error _ => .error .invalidAudience
      | .ok a =>
        if a.gender = "" ∨ a.ageGroups = [] then
          .error .audienceNeedsGenderAndAgeGroups
        else .ok (AssetAudience, a.description)
    else .error .unknownAssetType

/-- `models.Favourite`.  `createdAt` is an abstract instant; `asset`
keeps the payload verbatim. -/
structure Favourite where
  id : String
  type : AssetType
  description : String
  asset : Json
  createdAt : ℕ

/-- A Go map, as the sequence of its entries in iteration order (keys
are unique; the order itself carries no meaning, since Go randomises
map iteration). -/
abbrev FavMap := List (String × Favourite)

/-- `InMemoryRepo.data`: userID → favID → favourite. -/
abbrev Store := List (String × FavMap)

/-- First-match association-list lookup (Go map indexing). -/
def findEntry {α : Type} : List (String × α) → String → Option α
  | [], _ => none
  | (k, v) :: rest, key => if k = key then some v else findEntry rest key

/-- Go `m[k] = v`: overwrite the entry in place, or add one. -/
def setEntry {α : Type} : List (String × α) → String → α → List (String × α)
  | [], key, v => [(key, v)]
  | (k, w) :: rest, key, v =>
    if k = key then (key, v) :: rest else (k, w) :: setEntry rest key v

/-- Go `delete(m, k)`. -/
def removeEntry {α : Type} : List (String × α) → String → List (String × α)
  | [], _ => []
  | (k, w) :: rest, key =>
    if k = key then rest else (k, w) :: removeEntry rest key

/-- `r.data[userID]`: a missing user yields the nil map (`none`). -/
def userFavs (st : Store) (userID : String) : Option FavMap :=
  findEntry st userID

/-- The comparison `List` sorts with: `out[i].CreatedAt.After(out[j].CreatedAt)`
induces the weak order "createdAt no smaller". -/
def favGe (a b : Favourite) : Prop := b.createdAt ≤ a.createdAt

instance : DecidableRel favGe := fun a b => Nat.decLe b.createdAt a.createdAt

instance : IsTotal Favourite favGe := ⟨fun a b => Nat.le_total b.createdAt a.createdAt⟩

instance : IsTrans Favourite favGe :=
  ⟨fun _ _ _ h h' => Nat.le_trans h' h⟩

/-- The user's favourites in map iteration order (`for _, f := range m`). -/
def favsOf (st : Store) (userID : String) : List Favourite :=
  ((userFavs st userID).getD []).map Prod.snd

/-- `InMemoryRepo.List`: collect the user's favourites in map iteration
order and sort them newest-first with `sort.Slice`.  `sort.Slice` is an
unspecified comparison sort; a stable sort of the (already arbitrary)
iteration order realises its possible outcomes. -/
def repoList (st : Store) (userID : String) : List Favourite :=
  List.insertionSort favGe (favsOf st userID)

/-- `InMemoryRepo.Create`: unconditionally `r.data[userID][fav.ID] = fav`
and `return nil` — the error result is always absent. -/
def repoCreate (st : Store) (userID : String) (fav : Favourite) :
    Except SvcErr Store :=
  .ok (setEntry st userID (setEntry ((userFavs st userID).getD []) fav.id fav))

/-- `InMemoryRepo.Get`. -/
def repoGet (st : Store) (userID favID : String) : Except SvcErr Favourite :=
  match userFavs st userID with
  | none => .error .notFound
  | some m =>
    match findEntry m favID with
    | none => .error .notFound
    | some f => .ok f

/-- `InMemoryRepo.UpdateDescription`: mutate `f.Description` in place
and return the record. -/
def repoUpdateDescription (st : Store) (userID favID desc : String) :
    Except SvcErr Favourite × Store :=
  match userFavs st userID with
  | none => (.error .notFound, st)
  | some m =>
    match findEntry m favID with
    | none => (.error .notFound, st)
    | some f =>
      let f' : Favourite := { f with description := desc }
      (.ok f', setEntry st userID (setEntry m favID f'))

/-- `InMemoryRepo.Delete`. -/
def repoDelete (st : Store) (userID favID : String) :
    Except SvcErr Unit × Store :=
  match userFavs st userID with
  | none => (.error .notFound, st)
  | some m =>
    match findEntry m favID with
    | none => (.error .notFound, st)
    | some _ => (.ok (), setEntry st userID (removeEntry m favID))

/-- The strict version of `favGe`: strictly more recent. -/
def favGt (a b : Favourite) : Prop := b.createdAt < a.createdAt

instance : IsTrans Favourite favGt := ⟨fun _ _ _ h h' => lt_trans h' h⟩

instance : IsAntisymm Favourite favGt :=
  ⟨fun _ _ h h' => absurd (lt_trans h h') (lt_irrefl _)⟩

/-- `Service.ListFavourites`. -/
def listFavourites (st : Store) (userID : String) :
    Except SvcErr (List Favourite) :=
  if validateUserID userID then .ok (repoList st userID) else .error .invalidUserID

/-- `Service.CreateFavourite`.  The fresh identifier (`newID()`) and the
creation instant (`time.Now().UTC()`) are explicit arguments: the
service reads them from its environment. -/
def createFavourite (st : Store) (userID : String) (raw : Json)
    (freshID : String) (now : ℕ) : Except SvcErr Favourite × Store :=
  if validateUserID userID then
    match validateAsset raw with
    | .error e => (.error e, st)
    | .ok (t, desc) =>
      let f : Favourite :=
        { id := freshID, type := t, description := desc, asset := raw, createdAt := now }
      match repoCreate st userID f with
      | .error e => (.error e, st)
      | .ok st' => (.ok f, st')
  else (.error .invalidUserID, st)

/-- `Service.UpdateFavouriteDescription`. -/
def updateFavouriteDescription (st : Store) (userID favID desc : String) :
    Except SvcErr Favourite × Store :=
  if !validateUserID userID || isBlank favID then (.error .invalidPath, st)
  else repoUpdateDescription st userID favID desc

/-- `Service.DeleteFavourite`. -/
def deleteFavourite (st : Store) (userID favID : String) :
    Except SvcErr Unit × Store :=
  if !validateUserID userID || isBlank favID then (.error .invalidPath, st)
  else repoDelete st userID favID

/-- The alphabet of `service.newID`. -/
def idLetters : List Char := "abcdefghijklmnopqrstuvwxyz0123456789".data

/-- `service.newID`: 12 characters, each picked from `idLetters` by a
draw of `rand.Intn(36)`.  The random draws are an explicit argument. -/
def newID (draw : Fin 12 → Fin 36) : String :=
  String.mk ((List.finRange 12).map fun i => idLetters.getD (draw i).val 'a')

/-! Concrete sample data used to instantiate the theorems. -/

def favA : Favourite := ⟨"a", AssetInsight, "", .null, 5⟩
def favB : Favourite := ⟨"b", AssetInsight, "", .null, 5⟩

/-- Two iteration orders of the same two-favourite map (equal `createdAt`). -/
def stTie1 : Store := [("u", [("a", favA), ("b", favB)])]
def stTie2 : Store := [("u", [("b", favB), ("a", favA)])]

def favC : Favourite := ⟨"c", AssetInsight, "", .null, 9⟩
def favD : Favourite := ⟨"d", AssetChart, "", .null, 3⟩

/-- Two iteration orders of the same map, distinct `createdAt`. -/
def stDistinct1 : Store := [("u", [("c", favC), ("d", favD)])]
def stDistinct2 : Store := [("u", [("d", favD), ("c", favC)])]

def favX1 : Favourite := ⟨"x", AssetInsight, "old", .null, 1⟩
def favX2 : Favourite := ⟨"x", AssetChart, "new", .null, 2⟩

/-- A store already holding a favourite with id `"x"` for user `"u"`. -/
def stX : Store := [("u", [("x", favX1)])]

def insightPayload : Json :=
  .obj [("type", .str "insight"), ("text", .str "hello"), ("description", .str "d")]

def chartPayload : Json :=
  .obj [("type", .str "chart"), ("title", .str "Sales"),
        ("data", .arr [.num 1, .num 2, .num 3])]

def audiencePayload : Json :=
  .obj [("type", .str "audience"), ("gender", .str "f"),
        ("age_groups", .arr [.str "18-24"])]

/-- A chart payload with the required `data` field missing. -/
def chartMissingData : Json :=
  .obj [("type", .str "chart"), ("title", .str "T")]

/-- A well-formed payload whose `type` is not a recognised kind. -/
def mysteryPayload : Json := .obj [("type", .str "video")]

/-! Helper lemmas about the association-list model of Go maps. -/

theorem findEntry_setEntry_self {α : Type} (m : List (String × α)) (k : String) (v : α) :
    findEntry (setEntry m k v) k = some v := by
  induction m with
  | nil => simp [setEntry, findEntry]
  | cons hd tl ih =>
    obtain ⟨k', v'⟩ := hd
    by_cases h : k' = k
    · simp [setEntry, h, findEntry]
    · simp [setEntry, h, findEntry, ih]

theorem findEntry_setEntry_ne {α : Type} (m : List (String × α)) (k k' : String) (v : α)
    (h : k' ≠ k) : findEntry (setEntry m k v) k' = findEntry m k' := by
  induction m with
  | nil => simp [setEntry, findEntry, Ne.symm h]
  | cons hd tl ih =>
    obtain ⟨ka, va⟩ := hd
    by_cases hk : ka = k
    · subst hk
      simp [setEntry, findEntry, h, Ne.symm h]
    · simp [setEntry, hk, findEntry, ih]

theorem findEntry_removeEntry_ne {α : Type} (m : List (String × α)) (k k' : String)
    (h : k' ≠ k) : findEntry (removeEntry m k) k' = findEntry m k' := by
  induction m with
  | nil => simp [removeEntry]
  | cons hd tl ih =>
    obtain ⟨ka, va⟩ := hd
    by_cases hk : ka = k
    · subst hk
      simp [removeEntry, findEntry, Ne.symm h]
    · simp [removeEntry, hk, findEntry, ih]

theorem findEntry_eq_none_of_not_mem {α : Type} (m : List (String × α)) (k : String)
    (h : k ∉ m.map Prod.fst) : findEntry m k = none := by
  induction m with
  | nil => simp [findEntry]
  | cons hd tl ih =>
    obtain ⟨ka, va⟩ := hd
    simp only [List.map_cons, List.mem_cons] at h
    push_neg at h
    simp [findEntry, Ne.symm h.1, ih h.2]

theorem findEntry_removeEntry_self {α : Type} (m : List (String × α)) (k : String)
    (hnd : (m.map Prod.fst).Nodup) : findEntry (removeEntry m k) k = none := by
  induction m with
  | nil => simp [removeEntry, findEntry]
  | cons hd tl ih =>
    obtain ⟨ka, va⟩ := hd
    simp only [List.map_cons, List.nodup_cons] at hnd
    by_cases hk : ka = k
    · subst hk
      simp only [removeEntry, if_pos rfl]
      exact findEntry_eq_none_of_not_mem tl ka hnd.1
    · simp [removeEntry, hk, findEntry, ih hnd.2]

theorem mem_map_snd_of_findEntry {α : Type} (m : List (String × α)) (k : String) (v : α)
    (h : findEntry m k = some v) : v ∈ m.map Prod.snd := by
  induction m with
  | nil => simp [findEntry] at h
  | cons hd tl ih =>
    obtain ⟨ka, va⟩ := hd
    by_cases hk : ka = k
    · simp only [findEntry, if_pos hk] at h
      simp [Option.some.injEq] at h
      simp [h]
    · simp only [findEntry, if_neg hk] at h
      simp [ih h]

/-! Claim C1. -/

/-- C1 counterexample: two favourites for user `"u"` share `createdAt = 5`.
`stTie1` and `stTie2` hold exactly the same map entries (a permutation of
each other, i.e. the same unchanged store under two map iteration orders),
yet `List` returns the two favourites in different orders: the claimed
deterministic, stable tie-break does not exist in `InMemoryRepo.List`. -/
theorem c1_counterexample :
    favA.createdAt = favB.createdAt ∧
    ((userFavs stTie1 "u").getD []).Perm ((userFavs stTie2 "u").getD []) ∧
    repoList stTie1 "u" ≠ repoList stTie2 "u" := by
  refine ⟨rfl, ?_, ?_⟩
  · have e1 : (userFavs stTie1 "u").getD [] = [("a", favA), ("b", favB)] := rfl
    have e2 : (userFavs stTie2 "u").getD [] = [("b", favB), ("a", favA)] := rfl
    rw [e1, e2]
    exact List.Perm.swap ("b", favB) ("a", favA) []
  · have h1 : repoList stTie1 "u" = [favA, favB] := rfl
    have h2 : repoList stTie2 "u" = [favB, favA] := rfl
    rw [h1, h2]
    intro h
    have hab : favA = favB := (List.cons_eq_cons.mp h).1
    have : favA.id = favB.id := congrArg Favourite.id hab
    simp only [favA, favB] at this
    exact absurd this (by decide)

/-- C1 (amended): for every store and user — ties or not — `List` returns
a permutation of the user's stored favourites, sorted by `createdAt`
descending; and whenever all the user's `createdAt` values are pairwise
distinct, the output is additionally independent of the map iteration
order (any store holding the same favourites for that user yields the
same sequence).  No tie-break exists for equal timestamps. -/
theorem c1_list_sorted_desc (st : Store) (uid : String) :
    (repoList st uid).Perm (favsOf st uid) ∧
    (repoList st uid).Sorted favGe ∧
    ∀ st' : Store, (favsOf st' uid).Perm (favsOf st uid) →
      ((favsOf st uid).Pairwise fun a b => a.createdAt ≠ b.createdAt) →
      repoList st' uid = repoList st uid := by
  refine ⟨List.perm_insertionSort favGe _, List.sorted_insertionSort favGe _, ?_⟩
  intro st' hperm hdist
  have hsym : Symmetric fun a b : Favourite => a.createdAt ≠ b.createdAt :=
    fun _ _ h => Ne.symm h
  have p1 : (repoList st' uid).Perm (repoList st uid) :=
    ((List.perm_insertionSort favGe _).trans hperm).trans
      (List.perm_insertionSort favGe (favsOf st uid)).symm
  have d : (repoList st uid).Pairwise fun a b => a.createdAt ≠ b.createdAt :=
    ((List.perm_insertionSort favGe (favsOf st uid)).pairwise_iff @hsym).mpr hdist
  have d' : (repoList st' uid).Pairwise fun a b => a.createdAt ≠ b.createdAt :=
    (p1.pairwise_iff @hsym).mpr d
  have sgt : (repoList st uid).Sorted favGt :=
    ((List.sorted_insertionSort favGe (favsOf st uid)).and d).imp
      fun h => lt_of_le_of_ne h.1 fun e => h.2 e.symm
  have sgt' : (repoList st' uid).Sorted favGt :=
    ((List.sorted_insertionSort favGe (favsOf st' uid)).and d').imp
      fun h => lt_of_le_of_ne h.1 fun e => h.2 e.symm
  exact List.eq_of_perm_of_sorted p1 sgt' sgt

/-- Witness for C1: the sorted-permutation conjuncts at a concrete store,
and — with distinct timestamps — the two iteration orders of the same map
producing the same sorted listing. -/
theorem c1_witness :
    (repoList stDistinct1 "u").Perm (favsOf stDistinct1 "u") ∧
    (repoList stDistinct1 "u").Sorted favGe ∧
    repoList stDistinct2 "u" = repoList stDistinct1 "u" := by
  have hperm : (favsOf stDistinct2 "u").Perm (favsOf stDistinct1 "u") := by
    have e2 : favsOf stDistinct2 "u" = [favD, favC] := rfl
    have e1 : favsOf stDistinct1 "u" = [favC, favD] := rfl
    rw [e1, e2]
    exact List.Perm.swap favC favD []
  have hdist : (favsOf stDistinct1 "u").Pairwise
      fun a b => a.createdAt ≠ b.createdAt := by
    have e1 : favsOf stDistinct1 "u" = [favC, favD] := rfl
    rw [e1]
    refine List.Pairwise.cons ?_ (List.pairwise_singleton _ _)
    intro b hb
    rw [List.mem_singleton] at hb
    subst hb
    decide
  have h := c1_list_sorted_desc stDistinct1 "u"
  exact ⟨h.1, h.2.1, h.2.2 stDistinct2 hperm hdist⟩

/-! Claim C2. -/

/-- C2 counterexample: the store already holds favourite `favX1` with id
`"x"` for user `"u"`; `Create` with another favourite of the same id does
not fail with any duplicate-identifier error — it succeeds and silently
replaces the existing record.  (`favX2 ≠ favX1`: they differ in kind.) -/
theorem c2_counterexample :
    repoCreate stX "u" favX2 = .ok [("u", [("x", favX2)])] ∧
    repoGet [("u", [("x", favX2)])] "u" "x" = .ok favX2 ∧
    favX2 ≠ favX1 := by
  refine ⟨rfl, rfl, ?_⟩
  intro h
  have : favX2.type = favX1.type := congrArg Favourite.type h
  simp only [favX2, favX1] at this
  exact absurd this (by decide)

/-- C2 (amended): `InMemoryRepo.Create` never fails — there is no
`DuplicateID` error in the code.  It stores the favourite under its id,
silently overwriting any existing record with that id, and leaves every
other entry of that user's map unchanged. -/
theorem c2_create_overwrites (st : Store) (uid : String) (f : Favourite)
    (fid : String) (hfid : fid ≠ f.id) :
    ∃ st', repoCreate st uid f = .ok st' ∧
      repoGet st' uid f.id = .ok f ∧
      findEntry ((userFavs st' uid).getD []) fid =
        findEntry ((userFavs st uid).getD []) fid := by
  refine ⟨setEntry st uid (setEntry ((userFavs st uid).getD []) f.id f), rfl, ?_, ?_⟩
  · unfold repoGet userFavs
    simp only [findEntry_setEntry_self]
  · unfold userFavs
    simp only [findEntry_setEntry_self, Option.getD_some]
    rw [findEntry_setEntry_ne _ _ _ _ hfid]

/-- Witness for C2's amended theorem at the concrete collision input. -/
theorem c2_witness :
    ∃ st', repoCreate stX "u" favX2 = .ok st' ∧
      repoGet st' "u" favX2.id = .ok favX2 ∧
      findEntry ((userFavs st' "u").getD []) "y" =
        findEntry ((userFavs stX "u").getD []) "y" :=
  c2_create_overwrites stX "u" favX2 "y" (by decide)

/-! Claim C3. -/

/-- C3: for a user identifier failing the `^[a-zA-Z0-9_\-]{1,64}$` rule,
each of the four service operations fails with its pre-store validation
error (`"invalid user id"` for list/create, `"invalid path"` for
update/delete — the code's realisations of `InvalidIdentity`) and returns
the store unchanged: the repository is never consulted. -/
theorem c3_invalid_identity (st : Store) (uid : String)
    (h : validateUserID uid = false) :
    listFavourites st uid = .error .invalidUserID ∧
    (∀ raw fid now, createFavourite st uid raw fid now = (.error .invalidUserID, st)) ∧
    (∀ fid desc, updateFavouriteDescription st uid fid desc = (.error .invalidPath, st)) ∧
    (∀ fid, deleteFavourite st uid fid = (.error .invalidPath, st)) := by
  refine ⟨?_, fun raw fid now => ?_, fun fid desc => ?_, fun fid => ?_⟩
  · simp [listFavourites, h]
  · simp [createFavourite, h]
  · simp [updateFavouriteDescription, h]
  · simp [deleteFavourite, h]

/-- Witness for C3 at the malformed identity `"!!!"`. -/
theorem c3_witness :
    validateUserID "!!!" = false ∧
    listFavourites stX "!!!" = .error .invalidUserID ∧
    createFavourite stX "!!!" insightPayload "f1" 3 = (.error .invalidUserID, stX) ∧
    updateFavouriteDescription stX "!!!" "x" "d" = (.error .invalidPath, stX) ∧
    deleteFavourite stX "!!!" "x" = (.error .invalidPath, stX) := by
  have h : validateUserID "!!!" = false := by decide
  have c := c3_invalid_identity stX "!!!" h
  exact ⟨h, c.1, c.2.1 _ _ _, c.2.2.1 _ _, c.2.2.2 _⟩

/-! Characterisation of `validateAsset` and `createFavourite`, shared by
the payload-validation claims. -/

theorem validateAsset_chart_bad (raw : Json) (pr : ProbeStruct) (c : ChartStruct)
    (hp : decodeProbe raw = .ok pr) (ht : pr.type = AssetChart)
    (hc : decodeChart raw = .ok c)
    (hbad : isBlank c.title = true ∨ c.data = []) :
    validateAsset raw = .error .chartNeedsTitleAndData := by
  rcases hbad with h | h <;>
    simp [validateAsset, AssetChart, AssetInsight, AssetAudience, hp, ht, hc, h]

theorem validateAsset_chart_ok (raw : Json) (pr : ProbeStruct) (c : ChartStruct)
    (hp : decodeProbe raw = .ok pr) (ht : pr.type = AssetChart)
    (hc : decodeChart raw = .ok c)
    (htitle : isBlank c.title = false) (hdata : c.data ≠ []) :
    validateAsset raw = .ok (AssetChart, c.description) := by
  simp [validateAsset, AssetChart, AssetInsight, AssetAudience, hp, ht, hc,
    htitle, hdata]

theorem validateAsset_insight_bad (raw : Json) (pr : ProbeStruct) (i : InsightStruct)
    (hp : decodeProbe raw = .ok pr) (ht : pr.type = AssetInsight)
    (hi : decodeInsight raw = .ok i) (hbad : isBlank i.text = true) :
    validateAsset raw = .error .insightNeedsText := by
  simp [validateAsset, AssetChart, AssetInsight, AssetAudience, hp, ht, hi, hbad]

theorem validateAsset_insight_ok (raw : Json) (pr : ProbeStruct) (i : InsightStruct)
    (hp : decodeProbe raw = .ok pr) (ht : pr.type = AssetInsight)
    (hi : decodeInsight raw = .ok i) (htext : isBlank i.text = false) :
    validateAsset raw = .ok (AssetInsight, i.description) := by
  simp [validateAsset, AssetChart, AssetInsight, AssetAudience, hp, ht, hi, htext]

theorem validateAsset_audience_bad (raw : Json) (pr : ProbeStruct) (a : AudienceStruct)
    (hp : decodeProbe raw = .ok pr) (ht : pr.type = AssetAudience)
    (ha : decodeAudience raw = .ok a)
    (hbad : a.gender = "" ∨ a.ageGroups = []) :
    validateAsset raw = .error .audienceNeedsGenderAndAgeGroups := by
  rcases hbad with h | h <;>
    simp [validateAsset, AssetChart, AssetInsight, AssetAudience, hp, ht, ha, h]

theorem validateAsset_audience_ok (raw : Json) (pr : ProbeStruct) (a : AudienceStruct)
    (hp : decodeProbe raw = .ok pr) (ht : pr.type = AssetAudience)
    (ha : decodeAudience raw = .ok a)
    (hg : a.gender ≠ "") (hag : a.ageGroups ≠ []) :
    validateAsset raw = .ok (AssetAudience, a.description) := by
  simp [validateAsset, AssetChart, AssetInsight, AssetAudience, hp, ht, ha, hg, hag]

theorem validateAsset_unknown (raw : Json) (pr : ProbeStruct)
    (hp : decodeProbe raw = .ok pr)
    (h1 : pr.type ≠ AssetChart) (h2 : pr.type ≠ AssetInsight)
    (h3 : pr.type ≠ AssetAudience) :
    validateAsset raw = .error .unknownAssetType := by
  simp [validateAsset, hp, h1, h2, h3]

theorem createFavourite_err (st : Store) (uid : String) (raw : Json)
    (fid : String) (now : ℕ) (e : SvcErr)
    (hu : validateUserID uid = true) (hv : validateAsset raw = .error e) :
    createFavourite st uid raw fid now = (.error e, st) := by
  simp only [createFavourite, hu, hv, if_true]

theorem createFavourite_ok (st : Store) (uid : String) (raw : Json)
    (fid : String) (now : ℕ) (t : AssetType) (desc : String)
    (hu : validateUserID uid = true) (hv : validateAsset raw = .ok (t, desc)) :
    createFavourite st uid raw fid now =
      (.ok ⟨fid, t, desc, raw, now⟩,
       setEntry st uid
         (setEntry ((userFavs st uid).getD []) fid ⟨fid, t, desc, raw, now⟩)) := by
  simp only [createFavourite, hu, hv, if_true, repoCreate]

/-- A successful `CreateFavourite` determines the record and the new
store shape. -/
theorem createFavourite_ok_inv (st : Store) (uid : String) (raw : Json)
    (fid : String) (now : ℕ) (f : Favourite) (st' : Store)
    (h : createFavourite st uid raw fid now = (.ok f, st')) :
    validateUserID uid = true ∧
    ∃ t desc, validateAsset raw = .ok (t, desc) ∧
      f = ⟨fid, t, desc, raw, now⟩ ∧
      st' = setEntry st uid (setEntry ((userFavs st uid).getD []) fid f) := by
  by_cases hu : validateUserID uid
  · refine ⟨hu, ?_⟩
    cases hv : validateAsset raw with
    | error e =>
      rw [createFavourite_err st uid raw fid now e hu hv] at h
      simp [Prod.mk.injEq] at h
    | ok td =>
      obtain ⟨t, desc⟩ := td
      rw [createFavourite_ok st uid raw fid now t desc hu hv] at h
      have h1 : Except.ok (⟨fid, t, desc, raw, now⟩ : Favourite) = .ok f :=
        congrArg Prod.fst h
      have h2 : setEntry st uid
          (setEntry ((userFavs st uid).getD []) fid ⟨fid, t, desc, raw, now⟩) = st' :=
        congrArg Prod.snd h
      injection h1 with hf'
      exact ⟨t, desc, rfl, hf'.symm, by rw [← h2, hf'.symm]⟩
  · simp only [createFavourite, if_neg hu] at h
    simp [Prod.mk.injEq] at h

/-! Claim C4. -/

/-- C4: for a valid identity and a payload of a recognised kind whose
required field is missing or empty (chart: title or data; insight: text;
audience: gender or age_groups), `CreateFavourite` fails with that kind's
schema-violation error and returns the store unchanged, so a subsequent
`ListFavourites` sees the same sequence. -/
theorem c4_schema_violation (st : Store) (uid : String) (raw : Json)
    (fid : String) (now : ℕ) (hu : validateUserID uid = true) :
    (∀ pr c, decodeProbe raw = .ok pr → pr.type = AssetChart →
      decodeChart raw = .ok c → (isBlank c.title = true ∨ c.data = []) →
      createFavourite st uid raw fid now = (.error .chartNeedsTitleAndData, st)) ∧
    (∀ pr i, decodeProbe raw = .ok pr → pr.type = AssetInsight →
      decodeInsight raw = .ok i → isBlank i.text = true →
      createFavourite st uid raw fid now = (.error .insightNeedsText, st)) ∧
    (∀ pr a, decodeProbe raw = .ok pr → pr.type = AssetAudience →
      decodeAudience raw = .ok a → (a.gender = "" ∨ a.ageGroups = []) →
      createFavourite st uid raw fid now =
        (.error .audienceNeedsGenderAndAgeGroups, st)) := by
  refine ⟨fun pr c hp ht hc hbad => ?_, fun pr i hp ht hi hbad => ?_,
    fun pr a hp ht ha hbad => ?_⟩
  · exact createFavourite_err _ _ _ _ _ _ hu
      (validateAsset_chart_bad raw pr c hp ht hc hbad)
  · exact createFavourite_err _ _ _ _ _ _ hu
      (validateAsset_insight_bad raw pr i hp ht hi hbad)
  · exact createFavourite_err _ _ _ _ _ _ hu
      (validateAsset_audience_bad raw pr a hp ht ha hbad)

/-- Witness for C4: a chart payload without `data` is rejected and the
store is returned unchanged. -/
theorem c4_witness :
    createFavourite stX "kostas" chartMissingData "f1" 3 =
      (.error .chartNeedsTitleAndData, stX) :=
  (c4_schema_violation stX "kostas" chartMissingData "f1" 3 (by decide)).1
    ⟨"chart", ""⟩ ⟨"chart", "", "T", "", "", []⟩ (by rfl) (by rfl) (by rfl)
    (Or.inr (by rfl))

/-! Claim C5. -/

/-- C5: for a valid identity and a payload satisfying its declared kind's
structural rules, `CreateFavourite` succeeds and the returned record's
kind equals the probed (declared) type of the payload. -/
theorem c5_create_valid (st : Store) (uid : String) (raw : Json)
    (fid : String) (now : ℕ) (pr : ProbeStruct)
    (hu : validateUserID uid = true) (hp : decodeProbe raw = .ok pr) :
    (∀ c, pr.type = AssetChart → decodeChart raw = .ok c →
      isBlank c.title = false → c.data ≠ [] →
      ∃ st', createFavourite st uid raw fid now =
        (.ok ⟨fid, pr.type, c.description, raw, now⟩, st')) ∧
    (∀ i, pr.type = AssetInsight → decodeInsight raw = .ok i →
      isBlank i.text = false →
      ∃ st', createFavourite st uid raw fid now =
        (.ok ⟨fid, pr.type, i.description, raw, now⟩, st')) ∧
    (∀ a, pr.type = AssetAudience → decodeAudience raw = .ok a →
      a.gender ≠ "" → a.ageGroups ≠ [] →
      ∃ st', createFavourite st uid raw fid now =
        (.ok ⟨fid, pr.type, a.description, raw, now⟩, st')) := by
  refine ⟨fun c ht hc h1 h2 => ?_, fun i ht hi h1 => ?_, fun a ht ha h1 h2 => ?_⟩
  · rw [ht]
    exact ⟨_, createFavourite_ok _ _ _ _ _ _ _ hu
      (validateAsset_chart_ok raw pr c hp ht hc h1 h2)⟩
  · rw [ht]
    exact ⟨_, createFavourite_ok _ _ _ _ _ _ _ hu
      (validateAsset_insight_ok raw pr i hp ht hi h1)⟩
  · rw [ht]
    exact ⟨_, createFavourite_ok _ _ _ _ _ _ _ hu
      (validateAsset_audience_ok raw pr a hp ht ha h1 h2)⟩

/-- Witness for C5: a valid audience payload is accepted and the stored
record carries the declared kind `"audience"`. -/
theorem c5_witness :
    ∃ st', createFavourite [] "kostas" audiencePayload "f2" 4 =
      (.ok ⟨"f2", "audience", "", audiencePayload, 4⟩, st') :=
  (c5_create_valid [] "kostas" audiencePayload "f2" 4 ⟨"audience", ""⟩
      (by decide) (by rfl)).2.2
    ⟨"audience", "", "f", "", ["18-24"], 0, 0⟩ (by rfl) (by rfl)
    (by decide) (by decide)

/-! Claim C6. -/

/-- C6: a favourite created through `CreateFavourite` stores the supplied
raw payload verbatim (`Asset: raw`), and both `Get` and `List` return the
very record holding that payload: validation neither mutates nor
reformats it. -/
theorem c6_round_trip (st : Store) (uid : String) (raw : Json)
    (fid : String) (now : ℕ) (f : Favourite) (st' : Store)
    (h : createFavourite st uid raw fid now = (.ok f, st')) :
    f.asset = raw ∧ repoGet st' uid f.id = .ok f ∧ f ∈ repoList st' uid := by
  obtain ⟨hu, t, desc, hv, hf, hst⟩ := createFavourite_ok_inv st uid raw fid now f st' h
  have hasset : f.asset = raw := by rw [hf]
  have hid : f.id = fid := by rw [hf]
  subst hst
  refine ⟨hasset, ?_, ?_⟩
  · unfold repoGet userFavs
    simp only [findEntry_setEntry_self, hid]
  · unfold repoList
    refine ((List.perm_insertionSort favGe _).mem_iff).mpr ?_
    unfold favsOf userFavs
    rw [findEntry_setEntry_self]
    simp only [Option.getD_some]
    exact mem_map_snd_of_findEntry _ fid f (findEntry_setEntry_self _ fid f)

/-- Witness for C6 at a concrete successful creation. -/
theorem c6_witness :
    (⟨"abc", "insight", "d", insightPayload, 7⟩ : Favourite).asset = insightPayload ∧
    repoGet [("kostas", [("abc", ⟨"abc", "insight", "d", insightPayload, 7⟩)])]
      "kostas" "abc" = .ok ⟨"abc", "insight", "d", insightPayload, 7⟩ ∧
    (⟨"abc", "insight", "d", insightPayload, 7⟩ : Favourite) ∈
      repoList [("kostas", [("abc", ⟨"abc", "insight", "d", insightPayload, 7⟩)])]
        "kostas" :=
  c6_round_trip [] "kostas" insightPayload "abc" 7
    ⟨"abc", "insight", "d", insightPayload, 7⟩
    [("kostas", [("abc", ⟨"abc", "insight", "d", insightPayload, 7⟩)])] (by rfl)

/-! Claim C7. -/

/-- C7: a successful `UpdateFavouriteDescription` returns the stored
record with only `description` replaced — `id`, `kind`, `payload` and
`createdAt` keep their stored values — the updated record is what the
store now holds at that key, and every other favourite (any other user or
id) is untouched. -/
theorem c7_update_isolation (st : Store) (uid fid desc : String)
    (f' : Favourite) (st' : Store)
    (h : updateFavouriteDescription st uid fid desc = (.ok f', st')) :
    ∃ f, repoGet st uid fid = .ok f ∧
      f'.id = f.id ∧ f'.type = f.type ∧ f'.asset = f.asset ∧
      f'.createdAt = f.createdAt ∧ f'.description = desc ∧
      repoGet st' uid fid = .ok f' ∧
      ∀ uid2 fid2, ¬(uid2 = uid ∧ fid2 = fid) →
        repoGet st' uid2 fid2 = repoGet st uid2 fid2 := by
  unfold updateFavouriteDescription at h
  split at h
  · simp [Prod.mk.injEq] at h
  · unfold repoUpdateDescription at h
    cases hm : userFavs st uid with
    | none => rw [hm] at h; simp [Prod.mk.injEq] at h
    | some m =>
      rw [hm] at h
      cases hfe : findEntry m fid with
      | none => simp only [hfe] at h; simp [Prod.mk.injEq] at h
      | some f =>
        simp only [hfe] at h
        have h1 : Except.ok ({ f with description := desc } : Favourite) = .ok f' :=
          congrArg Prod.fst h
        have h2 : setEntry st uid (setEntry m fid { f with description := desc }) = st' :=
          congrArg Prod.snd h
        injection h1 with hf'
        refine ⟨f, ?_, ?_, ?_, ?_, ?_, ?_, ?_, ?_⟩
        · simp [repoGet, hm, hfe]
        · rw [← hf']
        · rw [← hf']
        · rw [← hf']
        · rw [← hf']
        · rw [← hf']
        · rw [← h2, hf']
          unfold repoGet userFavs
          simp only [findEntry_setEntry_self]
        · intro uid2 fid2 hne
          rw [← h2]
          by_cases hu2 : uid2 = uid
          · subst hu2
            have hfid2 : fid2 ≠ fid := fun he => hne ⟨rfl, he⟩
            have hm' : findEntry st uid2 = some m := hm
            unfold repoGet userFavs
            rw [findEntry_setEntry_self, hm']
            simp only [findEntry_setEntry_ne _ _ _ _ hfid2]
          · unfold repoGet userFavs
            rw [findEntry_setEntry_ne _ _ _ _ hu2]

/-- Witness for C7: updating the description of the stored favourite
`favX1` yields the same record with only `description` changed. -/
theorem c7_witness :
    ∃ f, repoGet stX "u" "x" = .ok f ∧
      (⟨"x", "insight", "nd", .null, 1⟩ : Favourite).id = f.id ∧
      (⟨"x", "insight", "nd", .null, 1⟩ : Favourite).type = f.type ∧
      (⟨"x", "insight", "nd", .null, 1⟩ : Favourite).asset = f.asset ∧
      (⟨"x", "insight", "nd", .null, 1⟩ : Favourite).createdAt = f.createdAt ∧
      (⟨"x", "insight", "nd", .null, 1⟩ : Favourite).description = "nd" ∧
      repoGet [("u", [("x", ⟨"x", "insight", "nd", .null, 1⟩)])] "u" "x" =
        .ok ⟨"x", "insight", "nd", .null, 1⟩ ∧
      ∀ uid2 fid2, ¬(uid2 = "u" ∧ fid2 = "x") →
        repoGet [("u", [("x", ⟨"x", "insight", "nd", .null, 1⟩)])] uid2 fid2 =
          repoGet stX uid2 fid2 :=
  c7_update_isolation stX "u" "x" "nd" ⟨"x", "insight", "nd", .null, 1⟩
    [("u", [("x", ⟨"x", "insight", "nd", .null, 1⟩)])] (by rfl)

/-! Claim C8. -/

/-- C8: for a valid identity and a payload that probe-decodes but whose
`type` is absent (probed as the zero value `""`) or not one of
chart/insight/audience, `CreateFavourite` fails with the unknown-kind
error, a value distinct from the malformed-payload and schema-violation
errors. -/
theorem c8_unknown_kind (st : Store) (uid : String) (raw : Json)
    (fid : String) (now : ℕ) (pr : ProbeStruct)
    (hu : validateUserID uid = true) (hp : decodeProbe raw = .ok pr)
    (h1 : pr.type ≠ AssetChart) (h2 : pr.type ≠ AssetInsight)
    (h3 : pr.type ≠ AssetAudience) :
    createFavourite st uid raw fid now = (.error .unknownAssetType, st) ∧
    SvcErr.unknownAssetType ≠ SvcErr.invalidAssetJson ∧
    SvcErr.unknownAssetType ≠ SvcErr.invalidChart ∧
    SvcErr.unknownAssetType ≠ SvcErr.invalidInsight ∧
    SvcErr.unknownAssetType ≠ SvcErr.invalidAudience ∧
    SvcErr.unknownAssetType ≠ SvcErr.chartNeedsTitleAndData ∧
    SvcErr.unknownAssetType ≠ SvcErr.insightNeedsText ∧
    SvcErr.unknownAssetType ≠ SvcErr.audienceNeedsGenderAndAgeGroups :=
  ⟨createFavourite_err _ _ _ _ _ _ hu (validateAsset_unknown raw pr hp h1 h2 h3),
    by decide, by decide, by decide, by decide, by decide, by decide, by decide⟩

/-- Witness for C8 at the unrecognised kind `"video"`. -/
theorem c8_witness :
    createFavourite stX "kostas" mysteryPayload "f3" 9 =
      (.error .unknownAssetType, stX) :=
  (c8_unknown_kind stX "kostas" mysteryPayload "f3" 9 ⟨"video", ""⟩
    (by decide) (by rfl) (by decide) (by decide) (by decide)).1

/-! Claim C9. -/

/-- C9: deleting a stored favourite twice with the same valid user id and
(non-blank) favourite id succeeds the first time and fails with
`NotFound` the second; the first call removes exactly that record — every
other user/id pair reads the same as before. -/
theorem c9_delete_twice (st : Store) (uid fid : String) (f : Favourite)
    (hu : validateUserID uid = true) (hb : isBlank fid = false)
    (hf : repoGet st uid fid = .ok f)
    (hnd : (((userFavs st uid).getD []).map Prod.fst).Nodup) :
    ∃ st1, deleteFavourite st uid fid = (.ok (), st1) ∧
      deleteFavourite st1 uid fid = (.error .notFound, st1) ∧
      repoGet st1 uid fid = .error .notFound ∧
      ∀ uid2 fid2, ¬(uid2 = uid ∧ fid2 = fid) →
        repoGet st1 uid2 fid2 = repoGet st uid2 fid2 := by
  cases hm : userFavs st uid with
  | none => unfold repoGet at hf; rw [hm] at hf; cases hf
  | some m =>
    cases hfe : findEntry m fid with
    | none => unfold repoGet at hf; rw [hm] at hf; simp only [hfe] at hf; cases hf
    | some f0 =>
      rw [hm] at hnd
      simp only [Option.getD_some] at hnd
      refine ⟨setEntry st uid (removeEntry m fid), ?_, ?_, ?_, ?_⟩
      · simp [deleteFavourite, hu, hb, repoDelete, hm, hfe]
      · have hgone : findEntry (removeEntry m fid) fid = none :=
          findEntry_removeEntry_self m fid hnd
        simp [deleteFavourite, hu, hb, repoDelete, userFavs,
          findEntry_setEntry_self, hgone]
      · have hgone : findEntry (removeEntry m fid) fid = none :=
          findEntry_removeEntry_self m fid hnd
        unfold repoGet userFavs
        rw [findEntry_setEntry_self]
        simp only [hgone]
      · intro uid2 fid2 hne
        by_cases hu2 : uid2 = uid
        · subst hu2
          have hfid2 : fid2 ≠ fid := fun he => hne ⟨rfl, he⟩
          have hm' : findEntry st uid2 = some m := hm
          unfold repoGet userFavs
          rw [findEntry_setEntry_self, hm']
          simp only [findEntry_removeEntry_ne _ _ _ hfid2]
        · unfold repoGet userFavs
          rw [findEntry_setEntry_ne _ _ _ _ hu2]

/-- Witness for C9: delete the only favourite of user `"u"` twice. -/
theorem c9_witness :
    ∃ st1, deleteFavourite stX "u" "x" = (.ok (), st1) ∧
      deleteFavourite st1 "u" "x" = (.error .notFound, st1) ∧
      repoGet st1 "u" "x" = .error .notFound ∧
      ∀ uid2 fid2, ¬(uid2 = "u" ∧ fid2 = "x") →
        repoGet st1 uid2 fid2 = repoGet stX uid2 fid2 :=
  c9_delete_twice stX "u" "x" favX1 (by decide) (by decide) (by rfl) (by decide)

/-! Claim C10. -/

/-- C10: every identifier `newID` can produce is exactly 12 characters,
each drawn from `a`–`z` or `0`–`9`; hence it is never blank, so a
favourite assembled by `CreateFavourite` carries an id that passes the
`strings.TrimSpace(favID) == ""` guard of update and delete. -/
theorem c10_newID_shape (draw : Fin 12 → Fin 36) :
    (newID draw).length = 12 ∧
    (∀ c ∈ (newID draw).data,
      ('a' ≤ c ∧ c ≤ 'z') ∨ ('0' ≤ c ∧ c ≤ '9')) ∧
    isBlank (newID draw) = false := by
  have key : ∀ j : Fin 36,
      (('a' ≤ idLetters.getD j.val 'a' ∧ idLetters.getD j.val 'a' ≤ 'z') ∨
       ('0' ≤ idLetters.getD j.val 'a' ∧ idLetters.getD j.val 'a' ≤ '9')) := by
    decide
  have keyws : ∀ j : Fin 36, (idLetters.getD j.val 'a').isWhitespace = false := by
    decide
  refine ⟨?_, ?_, ?_⟩
  · simp [newID, String.length]
  · intro c hc
    have hc' : c ∈ (List.finRange 12).map
        fun i => idLetters.getD (draw i).val 'a' := hc
    obtain ⟨i, _, hi⟩ := List.mem_map.mp hc'
    rw [← hi]
    exact key (draw i)
  · cases hall : isBlank (newID draw) with
    | false => rfl
    | true =>
      exfalso
      unfold isBlank at hall
      have hmem : idLetters.getD (draw 0).val 'a' ∈ (newID draw).data :=
        List.mem_map_of_mem _ (List.mem_finRange 0)
      have := List.all_eq_true.mp hall _ hmem
      rw [keyws (draw 0)] at this
      cases this

end PGC
